import Mathlib

/-!
Shallow embedding of the journaling utility in `src/journal/journal.py` and
theorems about its specified behaviour.

Modelling conventions:

* A filesystem directory is an association list from filename to file content
  (`Dir`).  `os.listdir` is the list of names, reading a file looks the name
  up, and writing a file replaces any binding for that name.
* A date value (an `arrow.Arrow` object) is modelled by its rendering
  function `Fmt : String → String`, mapping an arrow format string such as
  "YYYY-MM-DD" to the rendered text.  `arrow.now()` is an explicit `now : Fmt`
  argument supplied to the operations that may consult the clock.
* Python string operations used by the source are re-implemented on the
  character list of a `String` so that they evaluate inside the kernel:
  `str.lower` (ASCII case folding, which is exact on the ASCII data the
  program manipulates), `str.replace` with a one-character pattern,
  `str.endswith`, slicing `s[:n]`, and lexicographic comparison by code
  point (what `sorted` uses).
* Exceptions are explicit: operations return either an `Except`, or a result
  record carrying an `Option JErr` for the raised exception.
-/

namespace Journal

/-- ASCII lower-casing of one character; models Python `str.lower` on the
ASCII strings handled by the program. -/
def char_lower (c : Char) : Char :=
  if 'A' ≤ c ∧ c ≤ 'Z' then Char.ofNat (c.toNat + 32) else c

/-- Python `s.lower()` (ASCII). -/
def str_lower (s : String) : String :=
  ⟨s.data.map char_lower⟩

/-- Python `s.replace(old, new)` for a one-character pattern, which is the
only use in the source (`title.lower().replace(" ", "-")`). -/
def str_replace_char (s : String) (c r : Char) : String :=
  ⟨s.data.map (fun x => if x = c then r else x)⟩

/-- Python `s.endswith(t)`. -/
def str_endsWith (s t : String) : Bool :=
  t.data.isSuffixOf s.data

/-- Python slicing `s[:n]` (by characters). -/
def str_take (s : String) (n : Nat) : String :=
  ⟨s.data.take n⟩

/-- Kernel-computable lexicographic comparison of character lists by code
point: the order Python string comparison (hence `sorted`) uses. -/
def chars_le : List Char → List Char → Bool
  | [], _ => true
  | _ :: _, [] => false
  | a :: as, b :: bs => if a = b then chars_le as bs else decide (a < b)

/-- Python `a <= b` on strings. -/
def str_le (a b : String) : Bool :=
  chars_le a.data b.data

/-- `str_le` as a relation, used to instantiate the sorting algorithm. -/
def lexLe (a b : String) : Prop :=
  str_le a b = true

instance : DecidableRel lexLe :=
  fun _ _ => instDecidableEqBool _ _

/-- A directory: filenames with their contents.  `os.listdir` returns the
names; order of the listing is irrelevant to every operation modelled here
(membership tests, `max`, and a full `sorted`). -/
abbrev Dir := List (String × String)

/-- The names in the directory listing (`os.listdir`). -/
def Dir.names (d : Dir) : List String :=
  d.map Prod.fst

/-- Content of the file named `p`, if present. -/
def Dir.read (d : Dir) (p : String) : Option String :=
  (d.find? (fun e => decide (e.1 = p))).map Prod.snd

/-- Writing (creating or truncating) the file named `p`: `open(p, "w")`
followed by `f.write c`. -/
def Dir.write (d : Dir) (p c : String) : Dir :=
  (p, c) :: d.filter (fun e => decide (e.1 ≠ p))

/-- The exceptions raised by the modelled operations. -/
inductive JErr where
  /-- `ValueError` from `create_settings`: the settings file already exists. -/
  | settingsExists : JErr
  /-- `ValueError` raised by `latest = max(posts)` in `new` when the posts
  directory is empty (`max()` on an empty sequence). -/
  | emptyPosts : JErr
  /-- `RuntimeError` from `new`: today's default-named file exists and no
  explicit title was given (with a non-"journal" category). -/
  | defaultNameExists (path : String) : JErr
  /-- `IndexError` from `previous`: `sorted(posts)[-2]` with fewer than two
  names. -/
  | insufficientEntries : JErr
deriving DecidableEq

/-- `does_file_exist` (journal.py lines 20-23): whether a file exists at the
path. -/
def does_file_exist (d : Dir) (p : String) : Bool :=
  (Dir.read d p).isSome

/-- `create_settings` (journal.py lines 64-79) acting on the directory that
holds the settings file: raises `ValueError` when the file already exists,
otherwise writes it.  The `folder.mkdir` best-effort side effect concerns
directory creation only, which this file model does not track.  The result
pairs the directory after the call with the raised exception, if any. -/
def create_settings (d : Dir) (file_path data : String) : Dir × Option JErr :=
  if does_file_exist d file_path then (d, some JErr.settingsExists)
  else (Dir.write d file_path data, none)

/-- A date's rendering function: format string to rendered text (the
`format` method of an `arrow.Arrow` object). -/
abbrev Fmt := String → String

/-- `get_post_name` (journal.py lines 82-111).  Arguments appear in source
order after `now`; Python's defaults (`name=None`, `date=None`,
`day_format="MMMM-D"`, `date_format="YYYY-MM-DD"`, `sep="-"`, `ext=".md"`)
are passed explicitly at each call site.  When `date` is `None` the source
uses `arrow.now()`, here the `now` argument; the `TypeError` branch for a
non-arrow custom date is enforced by the type of `date`. -/
def get_post_name (now : Fmt) (name : Option String) (date : Option Fmt)
    (day_format date_format sep ext : String) : String :=
  let d : Fmt :=
    match date with
    | none => now
    | some f => f
  let date_string : String := d date_format
  let disc : String :=
    match name with
    | none => str_lower (d day_format)
    | some n => n
  date_string ++ sep ++ disc ++ ext

/-- `read_text` (journal.py lines 122-125); `none` models the `open` failing
because the file is absent. -/
def read_text (d : Dir) (file : String) : Option String :=
  Dir.read d file

/-- The fixed front-matter block assembled by `write_file`:
`"\n".join(lines)` for the five `lines`. -/
def front_matter (title layout category : String) : String :=
  String.intercalate "\n"
    ["---", "title: " ++ title, "layout: " ++ layout,
     "category: " ++ category, "---"]

/-- `write_file` (journal.py lines 128-144): front-matter template, then
`template + "\n" + body if body else template` (Python truthiness: the body
is appended only when non-empty), written with `open(file, "w")`, i.e.
overwriting whatever was there. -/
def write_file (d : Dir) (file title layout category body : String) : Dir :=
  let template := front_matter title layout category
  let content := if body = "" then template else template ++ "\n" ++ body
  Dir.write d file content

/-- Result of one invocation of the `new` command: the posts directory after
the call, the exception raised (if any), whether the "already exists"
warning was issued, and the file handed to the editor (if execution reached
`call([editor_exe, new_post])`). -/
structure NewRes where
  dir : Dir
  err : Option JErr
  warned : Bool
  opened : Option String
deriving DecidableEq

/-- The `new` command (journal.py lines 354-399) on the posts directory `d`,
with the caller's clock `now`, and the `--title`, `--category`, `--layout`
options.  Paths are the filenames within the posts directory (the
`os.path.join(settings["posts"], ·)` prefix is a fixed injective prefix and
is dropped).  Notes kept from the source:
* `latest = max(posts)` binds an unused variable, but raises `ValueError`
  on an empty listing; this is the only effect the model keeps of it.
* `todays_post in posts and category is "journal"`: for the values reachable
  here (`category` is either the interned default literal `"journal"` or a
  different string) the identity test coincides with string equality.
* the `assert os.path.isfile(new_post)` before the `RuntimeError` always
  holds in this model, where the listing and the files are the same map. -/
def new (d : Dir) (now : Fmt) (title : Option String)
    (category layout : String) : NewRes :=
  let posts := Dir.names d
  if posts = [] then ⟨d, some JErr.emptyPosts, false, none⟩
  else
    let todays_post := get_post_name now none none "MMMM-D" "YYYY-MM-DD" "-" ".md"
    if todays_post ∈ posts ∧ category = "journal" then
      ⟨d, none, true, some todays_post⟩
    else
      match title with
      | none =>
        if todays_post ∈ posts then
          ⟨d, some (JErr.defaultNameExists todays_post), false, none⟩
        else
          let t := get_post_name now none none "" "MMMM Do" "" ""
          ⟨write_file d todays_post t layout category "", none, false,
            some todays_post⟩
      | some t =>
        let new_post :=
          get_post_name now (some (str_replace_char (str_lower t) ' ' '-')) none
            "MMMM-D" "YYYY-MM-DD" "-" ".md"
        ⟨write_file d new_post t layout category "", none, false, some new_post⟩

/-- The `previous` command (journal.py lines 402-412):
`sorted(posts)[-2]`, handed to the editor.  The `IndexError` raised when the
listing has fewer than two names is `insufficientEntries`. -/
def previous (d : Dir) : Except JErr String :=
  let s := List.insertionSort lexLe (Dir.names d)
  if h : 2 ≤ s.length then
    Except.ok (s.get ⟨s.length - 2, by omega⟩)
  else Except.error JErr.insufficientEntries

/-- A calendar date as parsed by `arrow.get` from an ISO `YYYY-MM-DD`
prefix. -/
structure ArrowDate where
  year : Nat
  month : Nat
  day : Nat
deriving DecidableEq

/-- Gregorian leap year. -/
def is_leap (y : Nat) : Bool :=
  (y % 4 == 0 && y % 100 != 0) || y % 400 == 0

/-- Number of days in a month. -/
def days_in_month (y m : Nat) : Nat :=
  if m = 2 then (if is_leap y then 29 else 28)
  else if m = 4 ∨ m = 6 ∨ m = 9 ∨ m = 11 then 30
  else 31

/-- Numeric value of an ASCII digit. -/
def digit_val (c : Char) : Option Nat :=
  if c.isDigit then some (c.toNat - 48) else none

/-- `arrow.get` applied to the 10-character string taken from a filename:
succeeds exactly on a valid `YYYY-MM-DD` calendar date (the format the
source assumes: "All filenames must begin with a date in '%Y-%m-%d'
format"); `none` models the parser raising. -/
def parse_iso (s : String) : Option ArrowDate :=
  match s.data with
  | [y1, y2, y3, y4, s1, m1, m2, s2, d1, d2] =>
    if s1 = '-' ∧ s2 = '-' then
      match digit_val y1, digit_val y2, digit_val y3, digit_val y4,
          digit_val m1, digit_val m2, digit_val d1, digit_val d2 with
      | some a, some b, some c, some d, some e, some f, some g, some h =>
        let y := a * 1000 + b * 100 + c * 10 + d
        let mo := e * 10 + f
        let da := g * 10 + h
        if 1 ≤ mo ∧ mo ≤ 12 ∧ 1 ≤ da ∧ da ≤ days_in_month y mo then
          some ⟨y, mo, da⟩
        else none
      | _, _, _, _, _, _, _, _ => none
    else none
  | _ => none

/-- The digit character for `n < 10`. -/
def digit_char (n : Nat) : Char :=
  Char.ofNat (48 + n)

/-- A number rendered without padding, for the day values `1..31`. -/
def nat_str (n : Nat) : String :=
  if n < 10 then ⟨[digit_char n]⟩
  else ⟨[digit_char (n / 10 % 10), digit_char (n % 10)]⟩

/-- Two-digit zero-padded rendering. -/
def pad2 (n : Nat) : String :=
  ⟨[digit_char (n / 10 % 10), digit_char (n % 10)]⟩

/-- Four-digit zero-padded rendering. -/
def pad4 (n : Nat) : String :=
  ⟨[digit_char (n / 1000 % 10), digit_char (n / 100 % 10),
    digit_char (n / 10 % 10), digit_char (n % 10)]⟩

/-- Full English month name, `month_name 1 = "January"`. -/
def month_name (m : Nat) : String :=
  List.getD
    ["January", "February", "March", "April", "May", "June", "July",
     "August", "September", "October", "November", "December"] (m - 1) ""

/-- Abbreviated English month name, `month_abbr 12 = "Dec"`. -/
def month_abbr (m : Nat) : String :=
  List.getD
    ["Jan", "Feb", "Mar", "Apr", "May", "Jun", "Jul", "Aug", "Sep", "Oct",
     "Nov", "Dec"] (m - 1) ""

/-- English ordinal rendering of a day number (`1st`, `2nd`, `25th`), the
arrow `Do` token. -/
def ordinal (n : Nat) : String :=
  nat_str n ++
    (if n % 100 = 11 ∨ n % 100 = 12 ∨ n % 100 = 13 then "th"
     else if n % 10 = 1 then "st"
     else if n % 10 = 2 then "nd"
     else if n % 10 = 3 then "rd"
     else "th")

/-- The rendering function of a parsed date, for the arrow format strings
that occur in the source (`"YYYY-MM-DD"`, `"MMMM-D"`, `"MMMM Do"`, and the
empty format, which arrow renders as the empty string).  No other format
string reaches an `ArrowDate` in the modelled code. -/
def ArrowDate.format (a : ArrowDate) (f : String) : String :=
  if f = "YYYY-MM-DD" then pad4 a.year ++ "-" ++ pad2 a.month ++ "-" ++ pad2 a.day
  else if f = "MMMM-D" then month_name a.month ++ "-" ++ nat_str a.day
  else if f = "MMMM Do" then month_name a.month ++ " " ++ ordinal a.day
  else ""

/-- Python `date.strftime('%d %b %Y')`: zero-padded day, abbreviated month,
year. -/
def strftime_dbY (a : ArrowDate) : String :=
  pad2 a.day ++ " " ++ month_abbr a.month ++ " " ++ pad4 a.year

/-- The set (here: list, in listing order) of dates for which posts already
exist, as `convert` computes it:
`{arrow.get(post[:10]) for post in posts if post.lower().endswith(".md")}`.
`none` models `arrow.get` raising on a listing entry whose first ten
characters are not a valid ISO date. -/
def presentDates (posts : List String) : Option (List ArrowDate) :=
  (posts.filter (fun p => str_endsWith (str_lower p) ".md")).mapM
    (fun p => parse_iso (str_take p 10))

/-- Exceptions raised by `convert` before its import loop. -/
inductive ConvErr where
  /-- `AssertionError`: some input file does not end in `.md`. -/
  | badExtension : ConvErr
  /-- `arrow.parser.ParserError`: a filename's first ten characters are not a
  valid ISO date (from either the inputs or the existing listing). -/
  | badDate : ConvErr
deriving DecidableEq

/-- The `convert` command (journal.py lines 439-468) on posts directory `d`,
given the source files as (basename, content) pairs (the source reads each
file with `read_text`; `os.path.basename` is applied before the date is
sliced, so names here are basenames).  Returns the directory after the
loop of imports together with the list of source files skipped with the
"already present" duplicate warning.  `present` is computed once, before
the loop, as in the source.  `now` is threaded to `get_post_name`, which
ignores it because `convert` always passes an explicit date. -/
def convert (d : Dir) (_now : Fmt) (files : List (String × String)) :
    Except ConvErr (Dir × List String) :=
  if files.all (fun f => str_endsWith (str_lower f.1) ".md") then
    match files.mapM
        (fun f => (parse_iso (str_take f.1 10)).map (fun a => (f.1, f.2, a))) with
    | none => Except.error ConvErr.badDate
    | some to_import =>
      match presentDates (Dir.names d) with
      | none => Except.error ConvErr.badDate
      | some present =>
        Except.ok (to_import.foldl
          (fun acc x =>
            if x.2.2 ∈ present then (acc.1, acc.2 ++ [x.1])
            else
              (write_file acc.1
                (get_post_name (fun _ => "") none (some (ArrowDate.format x.2.2))
                  "MMMM-D" "YYYY-MM-DD" "-" ".md")
                ("Imported post from " ++ strftime_dbY x.2.2) "post" "journal"
                x.2.1,
               acc.2))
          (d, []))
  else Except.error ConvErr.badExtension

/-- The clock fixture for the scenarios dated 2024-03-01.  The `MMMM-D`
rendering is taken to be `"Friday"`, encoding the scenario's stated
assumption that the day format in use renders the day name (the actual
arrow rendering of `MMMM-D` would be `"March-1"`; the claims are stated
"assuming the day format renders Friday"). -/
def now_2024_03_01 : Fmt := fun f =>
  if f = "YYYY-MM-DD" then "2024-03-01"
  else if f = "MMMM-D" then "Friday"
  else if f = "MMMM Do" then "March 1st"
  else ""

/-! ## Helper lemmas -/

/-- `chars_le` agrees with the (Mathlib) lexicographic strict order on
character lists: `chars_le x y` holds exactly when `y` is not
lexicographically below `x`. -/
theorem chars_le_iff : ∀ x y : List Char,
    chars_le x y = true ↔ ¬ List.Lex (· < ·) y x := by
  intro x
  induction x with
  | nil =>
    intro y
    exact iff_of_true rfl (List.Lex.not_nil_right _ y)
  | cons a as ih =>
    intro y
    cases y with
    | nil =>
      exact iff_of_false (by simp [chars_le]) (fun hn => hn List.Lex.nil)
    | cons b bs =>
      by_cases hab : a = b
      · subst hab
        rw [show chars_le (a :: as) (a :: bs) = chars_le as bs from by
              simp [chars_le],
          ih bs, List.Lex.cons_iff]
      · rw [show chars_le (a :: as) (b :: bs) = decide (a < b) from by
              simp [chars_le, hab],
          decide_eq_true_eq]
        constructor
        · intro hlt hl
          cases hl with
          | rel h => exact absurd hlt (asymm h)
          | cons h => exact hab rfl
        · intro h
          rcases lt_trichotomy a b with h1 | h1 | h1
          · exact h1
          · exact absurd h1 hab
          · exact absurd (List.Lex.rel h1) h

/-- `str_le` agrees with Mathlib's linear order on `String` (code-point
lexicographic, the order Python's string comparison uses). -/
theorem str_le_iff_le (a b : String) : str_le a b = true ↔ a ≤ b := by
  rw [String.le_iff_toList_le, ← not_lt]
  exact chars_le_iff a.data b.data

/-- `lexLe` is total. -/
theorem lexLe_total (a b : String) : lexLe a b ∨ lexLe b a :=
  (le_total a b).imp (str_le_iff_le a b).mpr (str_le_iff_le b a).mpr

/-- `lexLe` is transitive. -/
theorem lexLe_trans {a b c : String} (hab : lexLe a b) (hbc : lexLe b c) :
    lexLe a c :=
  (str_le_iff_le a c).mpr
    (le_trans ((str_le_iff_le a b).mp hab) ((str_le_iff_le b c).mp hbc))

/-- Reading back the file just written. -/
theorem Dir.read_write (d : Dir) (p c : String) :
    Dir.read (Dir.write d p c) p = some c := by
  simp [Dir.read, Dir.write, List.find?]

/-- Appending the empty string is the identity. -/
theorem str_append_empty (s : String) : s ++ "" = s := by
  cases s with
  | mk l => exact congrArg String.mk (List.append_nil l)

/-- What `previous` returns on a listing with at least two names: the entry
at index `length - 2` of a sorted permutation of the full listing. -/
theorem previous_sorted_spec (d : Dir) (h : 2 ≤ (Dir.names d).length) :
    ∃ s x, List.Perm s (Dir.names d) ∧ List.Sorted lexLe s ∧
      previous d = Except.ok x ∧ s[s.length - 2]? = some x ∧
      x ∈ Dir.names d := by
  haveI : IsTotal String lexLe := ⟨lexLe_total⟩
  haveI : IsTrans String lexLe := ⟨fun _ _ _ => lexLe_trans⟩
  have hperm := List.perm_insertionSort lexLe (Dir.names d)
  have hlen : (List.insertionSort lexLe (Dir.names d)).length =
      (Dir.names d).length := List.length_insertionSort lexLe (Dir.names d)
  have h2 : 2 ≤ (List.insertionSort lexLe (Dir.names d)).length := by omega
  have hidx : (List.insertionSort lexLe (Dir.names d)).length - 2 <
      (List.insertionSort lexLe (Dir.names d)).length := by omega
  refine ⟨List.insertionSort lexLe (Dir.names d),
    (List.insertionSort lexLe (Dir.names d)).get ⟨_, hidx⟩,
    hperm, List.sorted_insertionSort lexLe (Dir.names d), ?_, ?_, ?_⟩
  · rw [previous, dif_pos h2]
  · rw [List.getElem?_eq_getElem hidx]
    simp [List.get_eq_getElem]
  · exact hperm.mem_iff.mp (List.get_mem _ _ _)

/-! ## Claims -/

/-- C8: `get_post_name` has no hidden current-time dependency in the
function itself: whenever the caller supplies the reference date, the
result is independent of the ambient clock (`arrow.now()`), so two calls
with identical reference date and parameters yield identical output (the
embedding is a pure function, so identical-input determinism is
immediate; this theorem states the clock-independence). -/
theorem C8_get_post_name_no_clock (now1 now2 : Fmt) (name : Option String)
    (d : Fmt) (day_format date_format sep ext : String) :
    get_post_name now1 name (some d) day_format date_format sep ext =
      get_post_name now2 name (some d) day_format date_format sep ext := rfl

/-- C2 counterexample: `get_post_name` does not lower-case an explicit
title, nor replace its spaces with the separator; on title `"Trip Notes"`
it returns `"2024-03-01-Trip Notes.md"`, not the
`"2024-03-01-trip-notes.md"` the claim predicts. -/
theorem C2_counterexample :
    get_post_name now_2024_03_01 (some "Trip Notes") none
        "MMMM-D" "YYYY-MM-DD" "-" ".md" ≠
      now_2024_03_01 "YYYY-MM-DD" ++ "-" ++
        str_replace_char (str_lower "Trip Notes") ' ' '-' ++ ".md" := by decide

/-- C2 (amended): `get_post_name` returns
`dateRendered(dateFormat) + sep + discriminator + ext`, where the
discriminator is the date rendered with `dayFormat` and lower-cased when no
explicit title is given, and is the explicit title verbatim when one is
given; the lower-casing and space-to-"-" replacement of an explicit title
are performed by the caller (`new`) before `get_post_name` is invoked. -/
theorem C2_get_post_name_shape (now fmt : Fmt)
    (t day_format date_format sep ext : String) :
    get_post_name now none (some fmt) day_format date_format sep ext =
        fmt date_format ++ sep ++ str_lower (fmt day_format) ++ ext
    ∧ get_post_name now (some t) (some fmt) day_format date_format sep ext =
        fmt date_format ++ sep ++ t ++ ext :=
  ⟨rfl, rfl⟩

/-- C6: writing an entry with `write_file` and reading the file back
reproduces the exact front-matter block byte-for-byte (the content is the
front matter followed by `"\n" ++ body` exactly when a non-empty body was
supplied), and `write_file` overwrites unconditionally: the resulting file
content does not depend on the directory's previous state. -/
theorem C6_write_file_roundtrip (d d' : Dir)
    (file title layout category body : String) :
    read_text (write_file d file title layout category body) file =
        some (front_matter title layout category ++
          (if body = "" then "" else "\n" ++ body))
    ∧ read_text (write_file d file title layout category body) file =
        read_text (write_file d' file title layout category body) file := by
  constructor
  · rw [write_file, read_text, Dir.read_write]
    by_cases hb : body = "" <;> simp [hb, str_append_empty, String.append_assoc]
  · rw [write_file, read_text, Dir.read_write, write_file, read_text,
      Dir.read_write]

/-- C5: `create_settings` never overwrites: when a file already exists at
the settings path it fails with the `ValueError` (`settingsExists`) and the
existing file's contents are unchanged; the write happens only when no file
exists at that path. -/
theorem C5_create_settings_no_overwrite (d : Dir) (p data : String) :
    (∀ c, Dir.read d p = some c →
      create_settings d p data = (d, some JErr.settingsExists) ∧
        Dir.read (create_settings d p data).1 p = some c)
    ∧ (Dir.read d p = none →
        create_settings d p data = (Dir.write d p data, none)) := by
  constructor
  · intro c hc
    have hex : does_file_exist d p = true := by
      simp [does_file_exist, hc]
    rw [create_settings, if_pos hex]
    exact ⟨rfl, hc⟩
  · intro hc
    have hex : does_file_exist d p = false := by
      simp [does_file_exist, hc]
    rw [create_settings, if_neg (by simp [hex])]

/-- C5 witness: on a directory that already holds `settings.json`, `save`
fails and leaves the old contents; on an empty directory it writes. -/
theorem C5_witness :
    (create_settings [("settings.json", "old")] "settings.json" "new" =
        ([("settings.json", "old")], some JErr.settingsExists) ∧
      Dir.read (create_settings [("settings.json", "old")] "settings.json"
          "new").1 "settings.json" = some "old")
    ∧ create_settings [] "settings.json" "new" =
        (Dir.write [] "settings.json" "new", none) :=
  ⟨(C5_create_settings_no_overwrite [("settings.json", "old")]
      "settings.json" "new").1 "old" (by decide),
   (C5_create_settings_no_overwrite [] "settings.json" "new").2 (by decide)⟩

/-- C1: the claim's scenario fails on the code.  On an empty posts
directory the `new` command evaluates `latest = max(posts)`, which raises
`ValueError: max() arg is an empty sequence` before any filename is
computed, so no file is created and no editor is launched (first
conjunct).  The rest of the scenario is the code's evident intent (the
variable `latest` is never used): seeded with one unrelated entry, the
same invocation creates `2024-03-01-friday.md` (under the claim's
assumption that the day format renders "Friday", encoded in
`now_2024_03_01`) with category `journal` and layout `post`, and a second
invocation the same day signals "already exists" and leaves the file's
contents unchanged (remaining conjuncts). -/
theorem C1_new_on_empty_posts :
    new ([] : Dir) now_2024_03_01 none "journal" "post" =
        ⟨[], some JErr.emptyPosts, false, none⟩
    ∧ new [("0000-seed.md", "")] now_2024_03_01 none "journal" "post" =
        ⟨[("2024-03-01-friday.md",
            "---\ntitle: March 1st\nlayout: post\ncategory: journal\n---"),
          ("0000-seed.md", "")],
         none, false, some "2024-03-01-friday.md"⟩
    ∧ new [("2024-03-01-friday.md",
            "---\ntitle: March 1st\nlayout: post\ncategory: journal\n---"),
           ("0000-seed.md", "")] now_2024_03_01 none "journal" "post" =
        ⟨[("2024-03-01-friday.md",
            "---\ntitle: March 1st\nlayout: post\ncategory: journal\n---"),
          ("0000-seed.md", "")],
         none, true, some "2024-03-01-friday.md"⟩ := by
  refine ⟨by decide, by decide, by decide⟩

/-- C10: when today's default-named entry already exists and `new` is
invoked with no explicit title but a category other than "journal", the
command raises the `RuntimeError` directing the user to the `--title`
option, and terminates without writing any file and without launching the
editor (`err` is set, the directory is returned unchanged, and `opened` is
`none`). -/
theorem C10_new_no_title_other_category (d : Dir) (now : Fmt)
    (category layout : String)
    (hmem : get_post_name now none none "MMMM-D" "YYYY-MM-DD" "-" ".md" ∈
      Dir.names d)
    (hcat : category ≠ "journal") :
    new d now none category layout =
      ⟨d, some (JErr.defaultNameExists
          (get_post_name now none none "MMMM-D" "YYYY-MM-DD" "-" ".md")),
        false, none⟩ := by
  have hne : Dir.names d ≠ [] := List.ne_nil_of_mem hmem
  simp [new, hne, hmem, hcat]

/-- C10 witness: today's default entry `2024-03-01-friday.md` exists,
`new` is called with no title and category "essay". -/
theorem C10_witness :
    new [("2024-03-01-friday.md", "x")] now_2024_03_01 none "essay" "post" =
      ⟨[("2024-03-01-friday.md", "x")],
        some (JErr.defaultNameExists "2024-03-01-friday.md"), false, none⟩ :=
  (C10_new_no_title_other_category [("2024-03-01-friday.md", "x")]
      now_2024_03_01 "essay" "post" (by decide) (by decide)).trans (by decide)

/-- C3 counterexample: a file with exactly the title-derived name
`2024-03-01-trip-notes.md` already exists, yet `new --title "Trip Notes"`
does not fail with any already-exists error: it silently overwrites the
existing file's contents. -/
theorem C3_counterexample :
    Dir.read [("2024-03-01-trip-notes.md", "old content")]
        "2024-03-01-trip-notes.md" = some "old content"
    ∧ new [("2024-03-01-trip-notes.md", "old content")] now_2024_03_01
        (some "Trip Notes") "journal" "post" =
      ⟨[("2024-03-01-trip-notes.md",
          "---\ntitle: Trip Notes\nlayout: post\ncategory: journal\n---")],
        none, false, some "2024-03-01-trip-notes.md"⟩ := by
  exact ⟨by decide, by decide⟩

/-- C3 (amended): with an explicit title, the operation computes the
filename from the title but performs no existence check against that name.
The only existence check in the flow is against today's *default* filename:
when that default-named entry is present and the category is "journal", the
command only opens the default entry and writes nothing; in every other
case it writes the title-derived file unconditionally, overwriting any
existing file with that name.  (The posts listing must be non-empty, or the
`max(posts)` crash of C1 fires first.) -/
theorem C3_new_with_title (d : Dir) (now : Fmt) (t category layout : String)
    (hne : Dir.names d ≠ []) :
    (get_post_name now none none "MMMM-D" "YYYY-MM-DD" "-" ".md" ∈ Dir.names d
        ∧ category = "journal" →
      new d now (some t) category layout =
        ⟨d, none, true,
          some (get_post_name now none none "MMMM-D" "YYYY-MM-DD" "-" ".md")⟩)
    ∧ (¬(get_post_name now none none "MMMM-D" "YYYY-MM-DD" "-" ".md" ∈
          Dir.names d ∧ category = "journal") →
      new d now (some t) category layout =
        ⟨write_file d
            (get_post_name now
              (some (str_replace_char (str_lower t) ' ' '-')) none
              "MMMM-D" "YYYY-MM-DD" "-" ".md") t layout category "",
          none, false,
          some (get_post_name now
            (some (str_replace_char (str_lower t) ' ' '-')) none
            "MMMM-D" "YYYY-MM-DD" "-" ".md")⟩) := by
  constructor
  · intro hcond
    simp [new, hne, hcond.1, hcond.2]
  · intro hcond
    simp only [new, if_neg hne, if_neg hcond]

/-- C3 witness: both branches of the amended claim at concrete inputs: the
open-only branch (default entry present, category "journal") and the
unconditional-overwrite branch (the counterexample input). -/
theorem C3_witness :
    new [("2024-03-01-friday.md", "x")] now_2024_03_01 (some "Trip Notes")
        "journal" "post" =
      ⟨[("2024-03-01-friday.md", "x")], none, true,
        some "2024-03-01-friday.md"⟩
    ∧ new [("2024-03-01-trip-notes.md", "old content")] now_2024_03_01
        (some "Trip Notes") "journal" "post" =
      ⟨[("2024-03-01-trip-notes.md",
          "---\ntitle: Trip Notes\nlayout: post\ncategory: journal\n---")],
        none, false, some "2024-03-01-trip-notes.md"⟩ :=
  ⟨((C3_new_with_title [("2024-03-01-friday.md", "x")] now_2024_03_01
      "Trip Notes" "journal" "post" (by decide)).1 (by decide)).trans
      (by decide),
   ((C3_new_with_title [("2024-03-01-trip-notes.md", "old content")]
      now_2024_03_01 "Trip Notes" "journal" "post" (by decide)).2
      (by decide)).trans (by decide)⟩

/-- C4: `previous` returns the entry at index `length - 2` of the full
lexicographic sort of all listed entries (second conjunct: there is a
sorted permutation `s` of the listing whose `s.length - 2` entry is the
result); with fewer than two entries it fails (`IndexError`, the
`InsufficientEntries` signal; first conjunct); and on exactly two entries
in lexicographic (hence, for default-named consecutive-date entries,
chronological) order it returns the earlier one (third conjunct). -/
theorem C4_previous_second_to_last (d : Dir) :
    ((Dir.names d).length < 2 →
      previous d = Except.error JErr.insufficientEntries)
    ∧ (2 ≤ (Dir.names d).length →
      ∃ s x, List.Perm s (Dir.names d) ∧ List.Sorted (· ≤ ·) s ∧
        previous d = Except.ok x ∧ s[s.length - 2]? = some x)
    ∧ (∀ a ca b cb, str_le a b = true → a ≠ b →
      previous [(a, ca), (b, cb)] = Except.ok a) := by
  refine ⟨?_, ?_, ?_⟩
  · intro h
    have hlen : (List.insertionSort lexLe (Dir.names d)).length =
        (Dir.names d).length := List.length_insertionSort lexLe (Dir.names d)
    rw [previous, dif_neg (by omega)]
  · intro h
    obtain ⟨s, x, hperm, hsorted, hres, hidx, -⟩ := previous_sorted_spec d h
    exact ⟨s, x, hperm, hsorted.imp (fun hab => (str_le_iff_le _ _).mp hab),
      hres, hidx⟩
  · intro a ca b cb hle hne
    have hlex : lexLe a b := hle
    have hlen : 2 ≤ (Dir.names [(a, ca), (b, cb)]).length := by
      simp [Dir.names]
    obtain ⟨s, x, hperm, hsorted, hres, hidx, -⟩ :=
      previous_sorted_spec [(a, ca), (b, cb)] hlen
    haveI : IsAntisymm String lexLe :=
      ⟨fun p q hp hq =>
        le_antisymm ((str_le_iff_le p q).mp hp) ((str_le_iff_le q p).mp hq)⟩
    have hnames : Dir.names [(a, ca), (b, cb)] = [a, b] := by
      simp [Dir.names]
    have hsab : List.Sorted lexLe [a, b] := by
      simp [List.sorted_cons, hlex]
    have hseq : s = [a, b] := by
      refine List.eq_of_perm_of_sorted ?_ hsorted hsab
      rw [hnames] at hperm
      exact hperm
    subst hseq
    simp only [List.length_cons, List.length_nil] at hidx
    simp only [show (0 + 1 + 1 - 2 : Nat) = 0 from rfl, List.getElem?_cons_zero,
      Option.some.injEq] at hidx
    rw [hres, hidx]

/-- C4 witness: two default-named entries for the consecutive dates
2024-03-01 and 2024-03-02 (earlier one returned), a two-element general
instance, and the zero- and one-entry failure cases. -/
theorem C4_witness :
    previous [("2024-03-01-friday.md", "x"), ("2024-03-02-saturday.md", "y")] =
        Except.ok "2024-03-01-friday.md"
    ∧ previous ([] : Dir) = Except.error JErr.insufficientEntries
    ∧ previous [("2024-03-01-friday.md", "x")] =
        Except.error JErr.insufficientEntries
    ∧ (∃ s x, List.Perm s (Dir.names [("b.md", ""), ("a.md", "")]) ∧
        List.Sorted (· ≤ ·) s ∧
        previous [("b.md", ""), ("a.md", "")] = Except.ok x ∧
        s[s.length - 2]? = some x) :=
  ⟨(C4_previous_second_to_last []).2.2 "2024-03-01-friday.md" "x"
      "2024-03-02-saturday.md" "y" (by decide) (by decide),
   (C4_previous_second_to_last []).1 (by decide),
   (C4_previous_second_to_last [("2024-03-01-friday.md", "x")]).1 (by decide),
   (C4_previous_second_to_last [("b.md", ""), ("a.md", "")]).2.1 (by decide)⟩

/-- C9 counterexample: files whose names do not end in the configured
extension are still candidate entries for the repository operations:
`previous` over a directory of `.txt` files returns one of them. -/
theorem C9_counterexample :
    previous [("a.txt", ""), ("b.txt", ""), ("c.txt", "")] =
        Except.ok "b.txt"
    ∧ str_endsWith (str_lower "b.txt") ".md" = false := by
  exact ⟨rfl, by decide⟩

/-- C9 (amended): only the `convert` operation restricts the directory
listing to names ending (case-insensitively) in the configured extension
(first conjunct: a non-`.md` name contributes nothing to its set of present
dates); `new` and `previous` consider every directory-listing name
regardless of extension (second conjunct: `previous` selects from all
listed names, with no extension condition). -/
theorem C9_extension_filtering (d : Dir) (posts : List String) (f : String) :
    (str_endsWith (str_lower f) ".md" = false →
      presentDates (f :: posts) = presentDates posts)
    ∧ (2 ≤ (Dir.names d).length →
      ∃ x, x ∈ Dir.names d ∧ previous d = Except.ok x) := by
  constructor
  · intro hf
    simp [presentDates, List.filter_cons, hf]
  · intro h
    obtain ⟨s, x, -, -, hres, -, hmem⟩ := previous_sorted_spec d h
    exact ⟨x, hmem, hres⟩

/-- C9 witness: a `.txt` name leaves `convert`'s present-date set
unchanged, and `previous` over extension-less names still selects one of
them. -/
theorem C9_witness :
    presentDates ["notes.txt", "2024-01-01-monday.md"] =
        presentDates ["2024-01-01-monday.md"]
    ∧ (∃ x, x ∈ Dir.names [("a.txt", ""), ("b.txt", ""), ("c.txt", "")] ∧
        previous [("a.txt", ""), ("b.txt", ""), ("c.txt", "")] =
          Except.ok x) :=
  ⟨(C9_extension_filtering [] ["2024-01-01-monday.md"] "notes.txt").1
      (by decide),
   (C9_extension_filtering [("a.txt", ""), ("b.txt", ""), ("c.txt", "")]
      [] "f").2 (by decide)⟩

/-- C7: `convert` on a source file named `2023-12-25-notes.md` takes the
date from the first 10 characters of the name; when no existing `.md`
entry's parsed date equals 2023-12-25 it creates the target entry (named by
the default scheme for that date) with title
"Imported post from 25 Dec 2023" and body equal to the source file's full
text; when some existing entry's parsed date equals that date it skips the
source file with the duplicate warning and writes nothing. -/
theorem C7_convert_import (d : Dir) (now : Fmt) (txt : String)
    (present : List ArrowDate)
    (hp : presentDates (Dir.names d) = some present) :
    (ArrowDate.mk 2023 12 25 ∉ present →
      convert d now [("2023-12-25-notes.md", txt)] =
        Except.ok (write_file d "2023-12-25-december-25.md"
          "Imported post from 25 Dec 2023" "post" "journal" txt, []))
    ∧ (ArrowDate.mk 2023 12 25 ∈ present →
      convert d now [("2023-12-25-notes.md", txt)] =
        Except.ok (d, ["2023-12-25-notes.md"])) := by
  have e2 : convert d now [("2023-12-25-notes.md", txt)] =
      Except.ok
        (if ArrowDate.mk 2023 12 25 ∈ present then (d, ["2023-12-25-notes.md"])
         else
           (write_file d
             (get_post_name (fun _ => "") none
               (some (ArrowDate.format (ArrowDate.mk 2023 12 25)))
               "MMMM-D" "YYYY-MM-DD" "-" ".md")
             ("Imported post from " ++ strftime_dbY (ArrowDate.mk 2023 12 25))
             "post" "journal" txt, [])) :=
    congrArg (fun o =>
      match o with
      | none => Except.error ConvErr.badDate
      | some pr =>
        Except.ok
          (if ArrowDate.mk 2023 12 25 ∈ pr then (d, ["2023-12-25-notes.md"])
           else
             (write_file d
               (get_post_name (fun _ => "") none
                 (some (ArrowDate.format (ArrowDate.mk 2023 12 25)))
                 "MMMM-D" "YYYY-MM-DD" "-" ".md")
               ("Imported post from " ++ strftime_dbY (ArrowDate.mk 2023 12 25))
               "post" "journal" txt, []))) hp
  have egpn : get_post_name (fun _ => "") none
      (some (ArrowDate.format (ArrowDate.mk 2023 12 25)))
      "MMMM-D" "YYYY-MM-DD" "-" ".md" = "2023-12-25-december-25.md" := by
    decide
  have etitle :
      "Imported post from " ++ strftime_dbY (ArrowDate.mk 2023 12 25) =
        "Imported post from 25 Dec 2023" := by decide
  constructor
  · intro hmem
    rw [e2, if_neg hmem, egpn, etitle]
  · intro hmem
    rw [e2, if_pos hmem]

/-- C7 witness: importing `2023-12-25-notes.md` into a directory with an
entry dated 2024-01-01 creates the imported entry (front matter plus the
source text as body); importing it into a directory with an entry dated
2023-12-25 skips it with the duplicate warning and changes nothing. -/
theorem C7_witness :
    convert [("2024-01-01-monday.md", "y")] now_2024_03_01
        [("2023-12-25-notes.md", "note body")] =
      Except.ok
        ([("2023-12-25-december-25.md",
            "---\ntitle: Imported post from 25 Dec 2023\nlayout: post\ncategory: journal\n---\nnote body"),
          ("2024-01-01-monday.md", "y")], [])
    ∧ convert [("2023-12-25-foo.md", "z")] now_2024_03_01
        [("2023-12-25-notes.md", "note body")] =
      Except.ok ([("2023-12-25-foo.md", "z")], ["2023-12-25-notes.md"]) :=
  ⟨((C7_convert_import [("2024-01-01-monday.md", "y")] now_2024_03_01
      "note body" [ArrowDate.mk 2024 1 1] (by decide)).1 (by decide)).trans
      (by rfl),
   ((C7_convert_import [("2023-12-25-foo.md", "z")] now_2024_03_01
      "note body" [ArrowDate.mk 2023 12 25] (by decide)).2 (by decide)).trans
      (by rfl)⟩

end Journal
